import Mathlib

/-!
Verification of the INIM alarm integration core.

A shallow embedding of the data-synchronisation and command-dispatch core of
the `inim_alarm` Home Assistant integration: the API client
(`custom_components/inim_alarm/api.py`), the update coordinator
(`custom_components/inim_alarm/coordinator.py`), the alarm-control-panel
state derivation (`alarm_control_panel.py`), the zone binary sensor
(`binary_sensor.py`) and the bypass switch (`switch.py`).

Vendor payloads are Python dicts; they are embedded as structures whose
fields are `Option`-typed where the Python code reads them with `.get`.
Network I/O is embedded as a scripted list of responses consumed one per
HTTP request, together with a log of the requests that were issued, so that
theorems can count and inspect network calls.
-/

namespace InimAlarm

/-! ## Constants (`const.py`) -/

def ZONE_STATUS_CLOSED : Int := 1

def ZONE_STATUS_OPEN : Int := 2

def AREA_ARMED_DISARMED : Int := 4

def AREA_ARMED_ARMED : Int := 1

def SCENARIO_TOTAL : Int := 0

def SCENARIO_DISARMED : Int := 1

def BYPASS_MODE_NORMAL : Int := 0

def BYPASS_MODE_BYPASS : Int := 3

/-! ## Vendor data model

Raw vendor records as returned inside the `GetDevicesExtended` envelope.
Fields the Python code reads with `dict.get` and no default are `Option`;
child collections default to `[]` exactly as `device.get("Areas", [])` does.
-/

structure Area where
  AreaId : Option Nat
  Name : Option String
  Alarm : Option Nat
  Armed : Option Int
  deriving Repr, DecidableEq

structure Zone where
  ZoneId : Option Nat
  Name : Option String
  Status : Option Int
  deriving Repr, DecidableEq

structure Scenario where
  ScenarioId : Option Int
  Name : Option String
  deriving Repr, DecidableEq

structure RawDevice where
  DeviceId : Option Nat
  Name : Option String
  SerialNumber : Option String
  ModelFamily : Option String
  ModelNumber : Option String
  FirmwareVersionMajor : Option String
  FirmwareVersionMinor : Option String
  Voltage : Option Int
  ActiveScenario : Option Int
  NetworkStatus : Option Int
  Faults : Option Int
  Areas : List Area
  Zones : List Zone
  Scenarios : List Scenario
  deriving Repr, DecidableEq

/-! ## Normalized snapshot (`coordinator._async_update_data`, lines 59-77) -/

/-- One entry of the normalized snapshot: the `device_data` dict built for
each raw device in `_async_update_data`. -/
structure DeviceData where
  device_id : Option Nat
  name : String
  serial_number : Option String
  model : String
  firmware : String
  voltage : Option Int
  active_scenario : Option Int
  network_status : Option Int
  faults : Int
  areas : List Area
  zones : List Zone
  scenarios : List Scenario
  deriving Repr, DecidableEq

/-- The `device_data` construction of `_async_update_data`, field for field. -/
def normalizeDevice (d : RawDevice) : DeviceData where
  device_id := d.DeviceId
  name := d.Name.getD "INIM Alarm"
  serial_number := d.SerialNumber
  model := (d.ModelFamily.getD "" ++ " " ++ d.ModelNumber.getD "").trim
  firmware := d.FirmwareVersionMajor.getD "" ++ "." ++ d.FirmwareVersionMinor.getD ""
  voltage := d.Voltage
  active_scenario := d.ActiveScenario
  network_status := d.NetworkStatus
  faults := d.Faults.getD 0
  areas := d.Areas
  zones := d.Zones
  scenarios := d.Scenarios

/-- The snapshot dict: `data = {"devices": [...]}`. -/
structure Snapshot where
  devices : List DeviceData
  deriving Repr, DecidableEq

/-- The device loop of `_async_update_data`: start from `"devices": []` and
append each normalized device, in input order. -/
def buildDeviceLoop (acc : List DeviceData) : List RawDevice → List DeviceData
  | [] => acc
  | d :: rest => buildDeviceLoop (acc ++ [normalizeDevice d]) rest

/-! ## Coordinator lookup accessors (`coordinator.py`, lines 96-143, 179-184)

`self.data` is `none` before the first successful refresh
(Python: `if not self.data`).
-/

/-- Accessor `InimDataUpdateCoordinator.devices`. -/
def coordinatorDevices (data : Option Snapshot) : List DeviceData :=
  match data with
  | none => []
  | some s => s.devices

/-- Accessor `InimDataUpdateCoordinator.get_device`. -/
def getDevice (data : Option Snapshot) (device_id : Nat) : Option DeviceData :=
  match data with
  | none => none
  | some s => s.devices.find? (fun d => decide (d.device_id = some device_id))

/-- Accessor `InimDataUpdateCoordinator.get_zone`. -/
def getZone (data : Option Snapshot) (device_id zone_id : Nat) : Option Zone :=
  match getDevice data device_id with
  | none => none
  | some d => d.zones.find? (fun z => decide (z.ZoneId = some zone_id))

/-- Accessor `InimDataUpdateCoordinator.get_area`. -/
def getArea (data : Option Snapshot) (device_id area_id : Nat) : Option Area :=
  match getDevice data device_id with
  | none => none
  | some d => d.areas.find? (fun a => decide (a.AreaId = some area_id))

/-- Accessor `InimDataUpdateCoordinator.get_scenario`. -/
def getScenario (data : Option Snapshot) (device_id : Nat) (scenario_id : Int) :
    Option Scenario :=
  match getDevice data device_id with
  | none => none
  | some d => d.scenarios.find? (fun s => decide (s.ScenarioId = some scenario_id))

/-- Accessor `InimDataUpdateCoordinator.get_active_scenario`. -/
def getActiveScenario (data : Option Snapshot) (device_id : Nat) : Option Scenario :=
  match getDevice data device_id with
  | none => none
  | some d =>
    match d.active_scenario with
    | none => none
    | some active_id => getScenario data device_id active_id

/-! ## Zone binary sensor (`binary_sensor.py`, lines 152-162) -/

/-- Body of `InimZoneBinarySensor.is_on` on a present zone:
`status = zone.get("Status", ZONE_STATUS_CLOSED); return (status - 1) > 0`. -/
def zoneIsOn (z : Zone) : Bool :=
  decide (z.Status.getD ZONE_STATUS_CLOSED - 1 > 0)

/-- Property `InimZoneBinarySensor.is_on`, `None` when the zone is absent. -/
def binarySensorIsOn (data : Option Snapshot) (device_id zone_id : Nat) :
    Option Bool :=
  match getZone data device_id zone_id with
  | none => none
  | some z => some (zoneIsOn z)

/-! ## String helpers mirroring the Python string operations used by
`alarm_control_panel.py` (`str.lower`, `str.upper`, substring `in`). -/

/-- Python `str.lower()` (the scenario names involved are ASCII). -/
def pyLower (s : String) : String := ⟨s.data.map Char.toLower⟩

/-- Python `str.upper()`. -/
def pyUpper (s : String) : String := ⟨s.data.map Char.toUpper⟩

/-- Substring test on character lists: `needle` occurs contiguously in the
list. -/
def charsHasSub (needle : List Char) : List Char → Bool
  | [] => needle.isEmpty
  | c :: rest => needle.isPrefixOf (c :: rest) || charsHasSub needle rest

/-- Python `needle in hay` on strings. -/
def strIn (needle hay : String) : Bool := charsHasSub needle.data hay.data

/-! ## Scenario auto-detection (`alarm_control_panel.py`, lines 122-162)

The unconfigured branch of `InimAlarmControlPanel.__init__` together with
`_find_scenario_id` and `_find_partial_scenarios`.
-/

/-- Method `InimAlarmControlPanel._find_scenario_id`: first scenario whose
lower-cased name contains the lower-cased needle; returns its
`ScenarioId` (or the default when that key is missing), else the default. -/
def findScenarioId (name : String) (dflt : Int) : List Scenario → Int
  | [] => dflt
  | s :: rest =>
    if strIn (pyLower name) (pyLower (s.Name.getD "")) then s.ScenarioId.getD dflt
    else findScenarioId name dflt rest

/-- Method `InimAlarmControlPanel._find_partial_scenarios`: ids of the scenarios
whose id is present and whose upper-cased name is neither exactly
`TOTALE` nor exactly `SPENTO`. -/
def findPartialScenarios : List Scenario → List Int
  | [] => []
  | s :: rest =>
    match s.ScenarioId with
    | none => findPartialScenarios rest
    | some sid =>
      if pyUpper (s.Name.getD "") = "TOTALE" ∨ pyUpper (s.Name.getD "") = "SPENTO" then
        findPartialScenarios rest
      else sid :: findPartialScenarios rest

/-- Auto-detected away scenario:
`self._find_scenario_id("TOTALE", SCENARIO_TOTAL)`. -/
def autodetectAway (scns : List Scenario) : Int :=
  findScenarioId "TOTALE" SCENARIO_TOTAL scns

/-- Auto-detected disarm scenario:
`self._find_scenario_id("SPENTO", SCENARIO_DISARMED)`. -/
def autodetectDisarm (scns : List Scenario) : Int :=
  findScenarioId "SPENTO" SCENARIO_DISARMED scns

/-- Auto-detected home scenario list: `self._find_partial_scenarios()`. -/
def autodetectHomeList (scns : List Scenario) : List Int :=
  findPartialScenarios scns

/-- Auto-detected home scenario:
`self._arm_home_scenarios[0] if self._arm_home_scenarios else
self._arm_away_scenario`. -/
def autodetectHome (scns : List Scenario) : Int :=
  match autodetectHomeList scns with
  | [] => autodetectAway scns
  | h :: _ => h

/-! ## Device-level alarm state (`alarm_control_panel.py`, lines 183-214) -/

inductive PanelState where
  | disarmed
  | armed_away
  | armed_home
  | triggered
  deriving Repr, DecidableEq

/-- The area loop of `InimAlarmControlPanel.alarm_state`:
`for area in areas: if area.get("Alarm", 0) > 0: return TRIGGERED`. -/
def areasHaveAlarm : List Area → Bool
  | [] => false
  | a :: rest => if a.Alarm.getD 0 > 0 then true else areasHaveAlarm rest

/-- Property `InimAlarmControlPanel.alarm_state`, parametrized by the resolved
disarm/away scenario ids and the home scenario id list held by the entity. -/
def alarmState (disarmId awayId : Int) (homeIds : List Int)
    (data : Option Snapshot) (device_id : Nat) : Option PanelState :=
  match getDevice data device_id with
  | none => none
  | some device =>
    match device.active_scenario with
    | none => none
    | some active =>
      if active = disarmId then some PanelState.disarmed
      else if active = awayId then some PanelState.armed_away
      else if homeIds.contains active then some PanelState.armed_home
      else if areasHaveAlarm device.areas then some PanelState.triggered
      else some PanelState.armed_away

/-! ### Spec-side functions for the alarm-state and auto-detection claims

These two definitions follow the specification's words, not the source, and
exist only to be compared against the source-derived definitions above.
-/

/-- The alarm-state precedence exactly as the specification words it,
top to bottom, first match wins: (1) any area with a live alarm flag gives
TRIGGERED; (2) active scenario equal to the disarm id gives DISARMED;
(3) equal to the away id gives ARMED_AWAY; (4) equal to the home id gives
ARMED_HOME; (5) fallback: ARMED_AWAY when some area's armed-status code
differs from the disarmed code, DISARMED otherwise. -/
def claimAlarmState (disarmId awayId homeId : Int) (device : DeviceData) :
    PanelState :=
  if device.areas.any (fun a => a.Alarm.getD 0 > 0) then PanelState.triggered
  else if device.active_scenario = some disarmId then PanelState.disarmed
  else if device.active_scenario = some awayId then PanelState.armed_away
  else if device.active_scenario = some homeId then PanelState.armed_home
  else if device.areas.any (fun a => decide (a.Armed.getD AREA_ARMED_DISARMED ≠ AREA_ARMED_DISARMED)) then
    PanelState.armed_away
  else PanelState.disarmed

/-- Scenario auto-detection exactly as the specification words it:
away is the scenario whose name case-insensitively contains TOTALE or
TOTAL (fallback 0), disarm the one containing SPENTO or OFF (fallback 1),
home the first remaining scenario matching neither heuristic (fallback 2).
Returns (away, disarm, home). -/
def claimAutodetect (scns : List Scenario) : Int × Int × Int :=
  let isAway := fun (s : Scenario) =>
    strIn "totale" (pyLower (s.Name.getD "")) || strIn "total" (pyLower (s.Name.getD ""))
  let isDisarm := fun (s : Scenario) =>
    strIn "spento" (pyLower (s.Name.getD "")) || strIn "off" (pyLower (s.Name.getD ""))
  let away := match scns.find? isAway with
    | some s => s.ScenarioId.getD 0
    | none => 0
  let disarm := match scns.find? isDisarm with
    | some s => s.ScenarioId.getD 1
    | none => 1
  let home := match scns.find? (fun s => !isAway s && !isDisarm s) with
    | some s => s.ScenarioId.getD 2
    | none => 2
  (away, disarm, home)

/-- The amended alarm-state precedence: resolved from the active scenario
first (DISARMED, then ARMED_AWAY, then ARMED_HOME for any configured home
id), then TRIGGERED when any area carries a live alarm flag, with an
unconditional ARMED_AWAY fallback; `none` when the device or its active
scenario is absent. -/
def amendedAlarmState (disarmId awayId : Int) (homeIds : List Int)
    (device : DeviceData) : Option PanelState :=
  match device.active_scenario with
  | none => none
  | some active =>
    if active = disarmId then some PanelState.disarmed
    else if active = awayId then some PanelState.armed_away
    else if homeIds.contains active then some PanelState.armed_home
    else if device.areas.any (fun a => a.Alarm.getD 0 > 0) then some PanelState.triggered
    else some PanelState.armed_away

/-- The amended auto-detection: away is the first scenario whose name
case-insensitively contains TOTALE (fallback 0), disarm the first
containing SPENTO (fallback 1), home the first scenario with an id whose
upper-cased name is neither exactly TOTALE nor exactly SPENTO, falling
back to the away id. Returns (away, disarm, home). -/
def amendedAutodetect (scns : List Scenario) : Int × Int × Int :=
  let away := match scns.find? (fun s => strIn "totale" (pyLower (s.Name.getD ""))) with
    | some s => s.ScenarioId.getD 0
    | none => 0
  let disarm := match scns.find? (fun s => strIn "spento" (pyLower (s.Name.getD ""))) with
    | some s => s.ScenarioId.getD 1
    | none => 1
  let homes := scns.filterMap (fun s =>
    match s.ScenarioId with
    | none => none
    | some sid =>
      if pyUpper (s.Name.getD "") = "TOTALE" ∨ pyUpper (s.Name.getD "") = "SPENTO" then none
      else some sid)
  (away, disarm, homes.headD away)

/-! ## Alarm-trigger edge detection (`coordinator.py`, lines 145-177)

`self._previous_alarm_states` is a dict keyed by `(device_id, area_id)`.
Only the truthiness of the stored alarm value is ever consulted, so it is
embedded as a `Bool`-valued association list with Python dict semantics:
lookup with default `False`, update in place, insert at the end.
-/

abbrev AlarmKey := Nat × Option Nat

abbrev AlarmTable := List (AlarmKey × Bool)

/-- Lookup `self._previous_alarm_states.get(key, False)`. -/
def tableGet (t : AlarmTable) (k : AlarmKey) : Bool :=
  match t with
  | [] => false
  | (k2, v) :: rest => if k2 = k then v else tableGet rest k

/-- Assignment `self._previous_alarm_states[key] = current_alarm`. -/
def tableSet (t : AlarmTable) (k : AlarmKey) (v : Bool) : AlarmTable :=
  match t with
  | [] => [(k, v)]
  | (k2, v2) :: rest => if k2 = k then (k, v) :: rest else (k2, v2) :: tableSet rest k v

/-- Payload of the `inim_alarm_triggered` event fired by
`_check_alarm_triggered`. -/
structure TriggerEvent where
  device_id : Nat
  device_name : String
  area_id : Option Nat
  area_name : String
  deriving Repr, DecidableEq

/-- Python `str(x)` for an optional number, as used by the f-string default
`f"Area \x7barea_id\x7d"`. -/
def pyShowOptNat : Option Nat → String
  | none => "None"
  | some n => toString n

/-- The inner area loop of `_check_alarm_triggered`: fire an event when the
current alarm flag is truthy and the stored previous value is not, then
store the current value. Returns the fired events and the updated table. -/
def checkAreas (did : Nat) (dname : String) (tbl : AlarmTable) :
    List Area → List TriggerEvent × AlarmTable
  | [] => ([], tbl)
  | a :: rest =>
    let key : AlarmKey := (did, a.AreaId)
    let current := a.Alarm.getD 0 != 0
    let previous := tableGet tbl key
    let evs : List TriggerEvent :=
      if current && !previous then
        [{ device_id := did, device_name := dname, area_id := a.AreaId,
           area_name := a.Name.getD ("Area " ++ pyShowOptNat a.AreaId) }]
      else []
    let next := checkAreas did dname (tableSet tbl key current) rest
    (evs ++ next.1, next.2)

/-- The device loop of `_check_alarm_triggered`: devices with a falsy
`device_id` (`None` or `0`) are skipped entirely. -/
def checkDevices (tbl : AlarmTable) : List DeviceData → List TriggerEvent × AlarmTable
  | [] => ([], tbl)
  | d :: rest =>
    match d.device_id with
    | none => checkDevices tbl rest
    | some did =>
      if did = 0 then checkDevices tbl rest
      else
        let this := checkAreas did d.name tbl d.areas
        let next := checkDevices this.2 rest
        (this.1 ++ next.1, next.2)

/-! ## Coordinator refresh (`coordinator.py`, lines 42-94) -/

/-- The error classification raised by the API layer: `InimAuthError`
(a subclass of `InimApiError`) versus plain `InimApiError`; a transport
`ClientError` is wrapped as a plain `InimApiError` with code 0. -/
inductive InimErr where
  | auth (code : Int)
  | api (code : Int)
  deriving Repr, DecidableEq

/-- The recoverable `UpdateFailed` signal `_async_update_data` raises for
the surrounding scheduling framework, with the classification it records. -/
inductive UpdateFailure where
  | authFailed (code : Int)
  | apiFailed (code : Int)
  deriving Repr, DecidableEq

/-- Coordinator-owned state: the last snapshot (`self.data`, `none` before
the first successful refresh) and the last-seen-alarm side table. -/
structure CoordState where
  data : Option Snapshot
  previousAlarmStates : AlarmTable
  deriving Repr, DecidableEq

/-- Method `InimDataUpdateCoordinator._async_update_data`, with the outcome of
`self.api.get_devices()` passed in: an API failure is re-raised as a
recoverable `UpdateFailure` before any state is touched; an empty device
list yields an empty snapshot without running the alarm check; otherwise
the snapshot is built, the alarm check runs, and the updated side table
and fired events are returned. -/
def asyncUpdateData (fetch : Except InimErr (List RawDevice)) (cs : CoordState) :
    Except UpdateFailure Snapshot × AlarmTable × List TriggerEvent :=
  match fetch with
  | .error (.auth c) => (.error (.authFailed c), cs.previousAlarmStates, [])
  | .error (.api c) => (.error (.apiFailed c), cs.previousAlarmStates, [])
  | .ok devices =>
    if devices.isEmpty then (.ok ⟨[]⟩, cs.previousAlarmStates, [])
    else
      let snap : Snapshot := ⟨buildDeviceLoop [] devices⟩
      let checked := checkDevices cs.previousAlarmStates snap.devices
      (.ok snap, checked.2, checked.1)

/-- One refresh cycle as seen through the update-coordinator framework,
whose documented contract keeps the previous `self.data` when
`_async_update_data` raises `UpdateFailed` and stores the returned
snapshot on success. Returns the new coordinator state, the surfaced
outcome, and the events fired during the cycle. -/
def coordinatorRefresh (fetch : Except InimErr (List RawDevice)) (cs : CoordState) :
    CoordState × Except UpdateFailure Unit × List TriggerEvent :=
  match asyncUpdateData fetch cs with
  | (.ok snap, tbl, evs) => ({ data := some snap, previousAlarmStates := tbl }, .ok (), evs)
  | (.error f, tbl, evs) => ({ cs with previousAlarmStates := tbl }, .error f, evs)

/-! ### Single-pair runs for the edge-detection claim -/

/-- A snapshot holding one device with one area whose alarm flag is the
given boolean (vendor encoding: 1 truthy, 0 falsy). -/
def onePairSnapshot (did : Nat) (dname : String) (aid : Nat) (aname : String)
    (flag : Bool) : Snapshot where
  devices := [{ device_id := some did, name := dname, serial_number := none,
                model := "", firmware := "", voltage := none,
                active_scenario := none, network_status := none, faults := 0,
                areas := [{ AreaId := some aid, Name := some aname,
                            Alarm := some (if flag then 1 else 0), Armed := none }],
                zones := [], scenarios := [] }]

/-- Feed `_check_alarm_triggered` one snapshot per cycle for a single
(device, area) pair whose alarm flag follows `flags`; collect the events
fired at each cycle and the final side table. -/
def runCycles (did : Nat) (dname : String) (aid : Nat) (aname : String)
    (tbl : AlarmTable) : List Bool → List (List TriggerEvent) × AlarmTable
  | [] => ([], tbl)
  | f :: rest =>
    let cycle := checkDevices tbl (onePairSnapshot did dname aid aname f).devices
    let next := runCycles did dname aid aname cycle.2 rest
    (cycle.1 :: next.1, next.2)

/-- The specification's description of edge triggering: given the stored
previous value (`false` if never seen), an event fires exactly at the
cycles whose flag is a rising edge. -/
def expectedEvents (did : Nat) (dname : String) (aid : Nat) (aname : String) :
    Bool → List Bool → List (List TriggerEvent)
  | _, [] => []
  | prev, f :: rest =>
    (if f && !prev then
        [{ device_id := did, device_name := dname, area_id := some aid,
           area_name := aname }]
      else []) :: expectedEvents did dname aid aname f rest

/-! ## API client (`api.py`)

The network is embedded as a script of responses, consumed one per
`_request` call, together with a log recording, for every request issued,
the method name and the token it carried. Counting entries of that log
counts network calls.
-/

inductive Method where
  | registerClient
  | getDevicesExtended
  | activateScenario
  | requestPoll
  | insertZone
  | insertAreas
  deriving Repr, DecidableEq

/-- Parsed JSON response envelope. `Token` and `Devices` stand for
`Data.Token` and `Data.Devices`; a malformed or missing `Data` leaves them
at their absent defaults. -/
structure Envelope where
  Status : Int
  Token : Option Nat := none
  TTL : Option Int := none
  Devices : List RawDevice := []
  deriving Repr, DecidableEq

/-- One scripted transport outcome: a parsed reply, or an
`aiohttp.ClientError`. -/
inductive NetResp where
  | reply (e : Envelope)
  | connectionError
  deriving Repr, DecidableEq

/-- Network state: the remaining script and the log of issued requests
(method, token sent). -/
structure Net where
  script : List NetResp
  calls : List (Method × Option Nat)
  deriving Repr, DecidableEq

/-- Session state owned by `InimApi`: the current token, its informational
TTL, and the device cache `self._devices`. -/
structure ApiState where
  token : Option Nat
  tokenTtl : Int := 0
  devices : List RawDevice := []
  deriving Repr, DecidableEq

/-- Method `InimApi._request`: consume one scripted response; a transport
error becomes a generic `InimApiError` (code 0); a non-zero `Status` in
`\x7b18, 19, 20\x7d` becomes `InimAuthError`, any other non-zero `Status` a
generic `InimApiError`; `Status == 0` returns the envelope. -/
def requestStep (m : Method) (tok : Option Nat) (net : Net) :
    Except InimErr Envelope × Net :=
  let consumed : Net := { script := net.script.tail, calls := net.calls ++ [(m, tok)] }
  match net.script.head? with
  | none => (.error (.api 0), consumed)
  | some .connectionError => (.error (.api 0), consumed)
  | some (.reply e) =>
    if e.Status = 0 then (.ok e, consumed)
    else if e.Status = 18 ∨ e.Status = 19 ∨ e.Status = 20 then
      (.error (.auth e.Status), consumed)
    else (.error (.api e.Status), consumed)

/-- Method `InimApi.authenticate`: send `RegisterClient` (with an empty
token field); on a successful envelope store `Data.Token` (possibly
absent, which leaves the stored token null) and the TTL, then raise
`InimAuthError` if no token was received; any `_request` error propagates
with the session state untouched. -/
def authenticate (st : ApiState) (net : Net) :
    Except InimErr Unit × ApiState × Net :=
  match requestStep .registerClient none net with
  | (.error e, net1) => (.error e, st, net1)
  | (.ok env, net1) =>
    let st1 : ApiState := { st with token := env.Token, tokenTtl := env.TTL.getD 86400 }
    match env.Token with
    | none => (.error (.auth 0), st1, net1)
    | some _ => (.ok (), st1, net1)

/-- Method `InimApi._ensure_authenticated`: authenticate only when no token
is present. -/
def ensureAuthenticated (st : ApiState) (net : Net) :
    Except InimErr Unit × ApiState × Net :=
  match st.token with
  | some _ => (.ok (), st, net)
  | none => authenticate st net

/-- Predicate `InimApi.is_authenticated`: a token is present. -/
def isAuthenticated (st : ApiState) : Bool := st.token.isSome

/-- Method `InimApi.get_devices`: ensure a token, attempt
`GetDevicesExtended` once; on `InimAuthError` re-authenticate and retry
the same request once with the new token; any error of the retry (or a
generic `InimApiError` of the first attempt) propagates unretried. The
returned device list is cached in `self._devices`. -/
def getDevicesOp (st : ApiState) (net : Net) :
    Except InimErr (List RawDevice) × ApiState × Net :=
  match ensureAuthenticated st net with
  | (.error e, st1, net1) => (.error e, st1, net1)
  | (.ok _, st1, net1) =>
    match requestStep .getDevicesExtended st1.token net1 with
    | (.ok env, net2) => (.ok env.Devices, { st1 with devices := env.Devices }, net2)
    | (.error (.api c), net2) => (.error (.api c), st1, net2)
    | (.error (.auth _), net2) =>
      match authenticate st1 net2 with
      | (.error e, st2, net3) => (.error e, st2, net3)
      | (.ok _, st2, net3) =>
        match requestStep .getDevicesExtended st2.token net3 with
        | (.ok env, net4) => (.ok env.Devices, { st2 with devices := env.Devices }, net4)
        | (.error e, net4) => (.error e, st2, net4)

/-- Shared shape of `activate_scenario`, `bypass_zone` and `insert_areas`:
ensure a token, attempt the method once, re-authenticate and retry once on
`InimAuthError`, propagate everything else; return `True` on success. -/
def commandOp (m : Method) (st : ApiState) (net : Net) :
    Except InimErr Bool × ApiState × Net :=
  match ensureAuthenticated st net with
  | (.error e, st1, net1) => (.error e, st1, net1)
  | (.ok _, st1, net1) =>
    match requestStep m st1.token net1 with
    | (.ok _, net2) => (.ok true, st1, net2)
    | (.error (.api c), net2) => (.error (.api c), st1, net2)
    | (.error (.auth _), net2) =>
      match authenticate st1 net2 with
      | (.error e, st2, net3) => (.error e, st2, net3)
      | (.ok _, st2, net3) =>
        match requestStep m st2.token net3 with
        | (.ok _, net4) => (.ok true, st2, net4)
        | (.error e, net4) => (.error e, st2, net4)

/-- Method `InimApi.activate_scenario`. -/
def activateScenarioOp (st : ApiState) (net : Net) :
    Except InimErr Bool × ApiState × Net :=
  commandOp .activateScenario st net

/-- Method `InimApi.bypass_zone`: the user code and bypass mode only feed
the request parameters; the API layer performs no user-code precondition
check of its own, so the request is issued whatever the code is. -/
def bypassZoneOp (user_code : String) (bypass : Bool) (st : ApiState) (net : Net) :
    Except InimErr Bool × ApiState × Net :=
  let _ := user_code
  let _ := bypass
  commandOp .insertZone st net

/-- Method `InimApi.insert_areas` (area arm/disarm batch): again the user
code only feeds the request parameters and no local check is made. -/
def insertAreasOp (user_code : String) (arm : Bool) (st : ApiState) (net : Net) :
    Except InimErr Bool × ApiState × Net :=
  let _ := user_code
  let _ := arm
  commandOp .insertAreas st net

/-! ## Bypass switch handlers (`switch.py`, lines 131-171) -/

/-- Handler `InimBypassSwitch.async_turn_on`: with an empty configured user
code it logs an error and returns normally, issuing no request; otherwise
it delegates to `bypass_zone` and re-raises its errors. -/
def asyncTurnOn (user_code : String) (st : ApiState) (net : Net) :
    Except InimErr Unit × ApiState × Net :=
  if user_code = "" then (.ok (), st, net)
  else
    match bypassZoneOp user_code true st net with
    | (.ok _, st1, net1) => (.ok (), st1, net1)
    | (.error e, st1, net1) => (.error e, st1, net1)

/-- Handler `InimBypassSwitch.async_turn_off`: same local check, delegating
with `bypass=False`. -/
def asyncTurnOff (user_code : String) (st : ApiState) (net : Net) :
    Except InimErr Unit × ApiState × Net :=
  if user_code = "" then (.ok (), st, net)
  else
    match bypassZoneOp user_code false st net with
    | (.ok _, st1, net1) => (.ok (), st1, net1)
    | (.error e, st1, net1) => (.error e, st1, net1)

/-! ### Script-building helpers for the theorems below -/

/-- Successful envelope carrying an optional token and a device list. -/
def okEnv (tok : Option Nat) (devs : List RawDevice) : Envelope :=
  { Status := 0, Token := tok, TTL := some 86400, Devices := devs }

/-- Error envelope with the given non-zero status. -/
def errEnv (c : Int) : Envelope := { Status := c }

/-! ### Spec-side definition for the snapshot-filtering claim -/

/-- Truthiness of a raw device id, as the consuming layers test it with
`if not device_id`. -/
def hasUsableId (d : RawDevice) : Bool :=
  match d.DeviceId with
  | none => false
  | some n => decide (n ≠ 0)

/-- Snapshot contents exactly as the specification words them: only the raw
devices with a usable device id survive, normalized, in input order. -/
def claimSnapshotDevices (raw : List RawDevice) : List DeviceData :=
  (raw.filter hasUsableId).map normalizeDevice

/-! ### Concrete sample inputs used by counterexamples and witnesses -/

/-- A device whose active scenario is the disarm scenario while one of its
areas carries a live alarm flag. -/
def sampleAlarmedDisarmedDevice : DeviceData where
  device_id := some 5
  name := "Panel"
  serial_number := none
  model := ""
  firmware := ""
  voltage := none
  active_scenario := some 1
  network_status := none
  faults := 0
  areas := [{ AreaId := some 1, Name := some "A", Alarm := some 1, Armed := some 4 }]
  zones := []
  scenarios := []

/-- A raw device lacking a device id. -/
def sampleIdlessRawDevice : RawDevice where
  DeviceId := none
  Name := some "X"
  SerialNumber := none
  ModelFamily := none
  ModelNumber := none
  FirmwareVersionMajor := none
  FirmwareVersionMinor := none
  Voltage := none
  ActiveScenario := none
  NetworkStatus := none
  Faults := none
  Areas := []
  Zones := []
  Scenarios := []

/-- A snapshot with one device (id 1, active scenario 5, one scenario id 9)
used to witness the lookup-accessor claim. -/
def sampleLookupSnapshot : Snapshot where
  devices := [{ device_id := some 1, name := "Panel", serial_number := none,
                model := "", firmware := "", voltage := none,
                active_scenario := some 5, network_status := none, faults := 0,
                areas := [{ AreaId := some 4, Name := some "A", Alarm := none, Armed := none }],
                zones := [{ ZoneId := some 6, Name := some "Z", Status := some 1 }],
                scenarios := [{ ScenarioId := some 9, Name := some "S" }] }]

/-!
## Theorems

Helper lemmas come first, then one theorem per claim (with its
counterexample and witness where required).
-/

/-- The snapshot device loop appends the normalized devices to its
accumulator, preserving input order. -/
theorem buildDeviceLoop_eq (raw : List RawDevice) :
    ∀ acc : List DeviceData, buildDeviceLoop acc raw = acc ++ raw.map normalizeDevice := by
  induction raw with
  | nil => intro acc; simp [buildDeviceLoop]
  | cons d rest ih => intro acc; simp [buildDeviceLoop, ih]

/-- The recursive area scan agrees with `List.any`. -/
theorem areasHaveAlarm_eq_any (l : List Area) :
    areasHaveAlarm l = l.any (fun a => a.Alarm.getD 0 > 0) := by
  induction l with
  | nil => rfl
  | cons a rest ih =>
    by_cases h : a.Alarm.getD 0 > 0 <;> simp [areasHaveAlarm, h, ih]

/-- C9: for every zone, the binary sensor's observable open state equals
`status > ZONE_STATUS_CLOSED` where the closed code is 1, the smaller of
the two known status codes; a zone with no status field reports closed. -/
theorem C9_zone_open_iff_status_above_closed (z : Zone) :
    zoneIsOn z = decide (z.Status.getD ZONE_STATUS_CLOSED > ZONE_STATUS_CLOSED) ∧
    zoneIsOn { z with Status := none } = false ∧
    ZONE_STATUS_CLOSED = 1 ∧ ZONE_STATUS_CLOSED < ZONE_STATUS_OPEN := by
  refine ⟨?_, ?_, rfl, by decide⟩
  · simp only [zoneIsOn, ZONE_STATUS_CLOSED]
    rw [decide_eq_decide]
    omega
  · simp [zoneIsOn, ZONE_STATUS_CLOSED]

/-- C6 counterexample: a raw device lacking a device id is NOT excluded
from the normalized snapshot, so the snapshot differs from the claimed
filtered contents. -/
theorem C6_counterexample :
    buildDeviceLoop [] [sampleIdlessRawDevice] ≠
      claimSnapshotDevices [sampleIdlessRawDevice] := by
  intro h
  have hlen := congrArg List.length h
  simp [buildDeviceLoop, claimSnapshotDevices, hasUsableId, sampleIdlessRawDevice] at hlen

/-- C6 (amended): the snapshot builder performs no filtering at all: the
normalized snapshot contains every raw device, in input order, whether or
not it has a usable device id. -/
theorem C6_snapshot_keeps_every_device (raw : List RawDevice) :
    buildDeviceLoop [] raw = raw.map normalizeDevice ∧
    (buildDeviceLoop [] raw).length = raw.length := by
  refine ⟨?_, ?_⟩
  · simpa using buildDeviceLoop_eq raw []
  · rw [buildDeviceLoop_eq raw []]
    simp

/-- C4: a refresh whose `get_devices` call fails with either error
classification is surfaced as a recoverable `UpdateFailure` value (not a
crash), fires no events, and leaves the whole coordinator state — the
previous snapshot and the last-seen-alarm side table — unchanged. -/
theorem C4_failed_refresh_preserves_state (e : InimErr) (cs : CoordState) :
    (coordinatorRefresh (Except.error e) cs).1 = cs ∧
    (coordinatorRefresh (Except.error e) cs).2.2 = [] ∧
    ∃ f : UpdateFailure,
      (coordinatorRefresh (Except.error e) cs).2.1 = Except.error f := by
  cases e with
  | auth c => exact ⟨rfl, rfl, ⟨UpdateFailure.authFailed c, rfl⟩⟩
  | api c => exact ⟨rfl, rfl, ⟨UpdateFailure.apiFailed c, rfl⟩⟩

/-- C1 counterexample: with disarm id 1, away id 0, home ids [2], a device
whose active scenario is the disarm scenario and whose area carries a live
alarm flag is reported DISARMED by the code, while the claimed precedence
(live alarm first) yields TRIGGERED. -/
theorem C1_counterexample :
    alarmState 1 0 [2] (some ⟨[sampleAlarmedDisarmedDevice]⟩) 5 =
      some PanelState.disarmed ∧
    claimAlarmState 1 0 2 sampleAlarmedDisarmedDevice = PanelState.triggered := by
  exact ⟨rfl, rfl⟩

/-- C1 (amended): the device panel state is resolved from the active
scenario first — DISARMED for the disarm id, then ARMED_AWAY for the away
id, then ARMED_HOME for any configured home id — then TRIGGERED when some
area carries a live alarm flag, with an unconditional ARMED_AWAY fallback;
it is `none` when the device or its active scenario is absent. -/
theorem C1_alarm_state_precedence (disarmId awayId : Int) (homeIds : List Int)
    (data : Option Snapshot) (device_id : Nat) :
    alarmState disarmId awayId homeIds data device_id =
      (getDevice data device_id).bind (amendedAlarmState disarmId awayId homeIds) := by
  cases hdev : getDevice data device_id with
  | none => simp [alarmState, hdev]
  | some device =>
    simp only [alarmState, hdev, Option.some_bind]
    cases hact : device.active_scenario with
    | none => simp [amendedAlarmState, hact]
    | some active =>
      simp [amendedAlarmState, hact, areasHaveAlarm_eq_any]

/-- The scenario-scan loop agrees with `List.find?`. -/
theorem findScenarioId_eq_find (name : String) (dflt : Int) (scns : List Scenario) :
    findScenarioId name dflt scns =
      match scns.find? (fun s => strIn (pyLower name) (pyLower (s.Name.getD ""))) with
      | some s => s.ScenarioId.getD dflt
      | none => dflt := by
  induction scns with
  | nil => rfl
  | cons s rest ih =>
    by_cases h : strIn (pyLower name) (pyLower (s.Name.getD "")) = true
    · simp [findScenarioId, h, List.find?_cons_of_pos _ h]
    · rw [findScenarioId, if_neg (by simpa using h), List.find?_cons_of_neg _ (by simpa using h), ih]

/-- The partial-scenario loop agrees with `List.filterMap`. -/
theorem findPartialScenarios_eq_filterMap (scns : List Scenario) :
    findPartialScenarios scns = scns.filterMap (fun s =>
      match s.ScenarioId with
      | none => none
      | some sid =>
        if pyUpper (s.Name.getD "") = "TOTALE" ∨ pyUpper (s.Name.getD "") = "SPENTO" then none
        else some sid) := by
  induction scns with
  | nil => rfl
  | cons s rest ih =>
    cases hsid : s.ScenarioId with
    | none => simp [findPartialScenarios, hsid, List.filterMap_cons, ih]
    | some sid =>
      by_cases h : pyUpper (s.Name.getD "") = "TOTALE" ∨ pyUpper (s.Name.getD "") = "SPENTO" <;>
        simp [findPartialScenarios, hsid, List.filterMap_cons, h, ih]

/-- C5 counterexample: a scenario named TOTAL (claimed to be matched as
away) is not matched by the code, which falls back to id 0; and with only
TOTALE and SPENTO scenarios the home id falls back to the away id (0),
not to the claimed numeric fallback 2. -/
theorem C5_counterexample :
    (autodetectAway [{ ScenarioId := some 5, Name := some "TOTAL" }] = 0 ∧
      (claimAutodetect [{ ScenarioId := some 5, Name := some "TOTAL" }]).1 = 5) ∧
    (autodetectHome [{ ScenarioId := some 0, Name := some "TOTALE" },
                     { ScenarioId := some 1, Name := some "SPENTO" }] = 0 ∧
      (claimAutodetect [{ ScenarioId := some 0, Name := some "TOTALE" },
                        { ScenarioId := some 1, Name := some "SPENTO" }]).2.2 = 2) := by
  exact ⟨⟨rfl, rfl⟩, ⟨rfl, rfl⟩⟩

/-- C5 (amended): auto-detection selects away as the first scenario whose
name case-insensitively contains TOTALE (fallback 0), disarm as the first
containing SPENTO (fallback 1), and home as the first scenario carrying an
id whose upper-cased name is neither exactly TOTALE nor exactly SPENTO,
falling back to the away id; the concrete scenarios TOTALE/SPENTO/NOTTE
with ids 0/1/2 resolve to away 0, disarm 1, home 2. -/
theorem C5_autodetect_resolution (scns : List Scenario) :
    (autodetectAway scns, autodetectDisarm scns, autodetectHome scns) =
      amendedAutodetect scns ∧
    (autodetectAway [{ ScenarioId := some 0, Name := some "TOTALE" },
                     { ScenarioId := some 1, Name := some "SPENTO" },
                     { ScenarioId := some 2, Name := some "NOTTE" }],
     autodetectDisarm [{ ScenarioId := some 0, Name := some "TOTALE" },
                       { ScenarioId := some 1, Name := some "SPENTO" },
                       { ScenarioId := some 2, Name := some "NOTTE" }],
     autodetectHome [{ ScenarioId := some 0, Name := some "TOTALE" },
                     { ScenarioId := some 1, Name := some "SPENTO" },
                     { ScenarioId := some 2, Name := some "NOTTE" }]) = (0, 1, 2) := by
  refine ⟨?_, by exact rfl⟩
  have haway : autodetectAway scns =
      match scns.find? (fun s => strIn (pyLower "TOTALE") (pyLower (s.Name.getD ""))) with
      | some s => s.ScenarioId.getD 0
      | none => 0 := by
    simpa [SCENARIO_TOTAL] using findScenarioId_eq_find "TOTALE" SCENARIO_TOTAL scns
  have hdisarm : autodetectDisarm scns =
      match scns.find? (fun s => strIn (pyLower "SPENTO") (pyLower (s.Name.getD ""))) with
      | some s => s.ScenarioId.getD 1
      | none => 1 := by
    simpa [SCENARIO_DISARMED] using findScenarioId_eq_find "SPENTO" SCENARIO_DISARMED scns
  have hpy1 : pyLower "TOTALE" = "totale" := by rfl
  have hpy2 : pyLower "SPENTO" = "spento" := by rfl
  simp only [amendedAutodetect, Prod.mk.injEq]
  refine ⟨by rw [haway, hpy1], by rw [hdisarm, hpy2], ?_⟩
  rw [autodetectHome, autodetectHomeList, findPartialScenarios_eq_filterMap]
  cases hfp : scns.filterMap (fun s =>
      match s.ScenarioId with
      | none => none
      | some sid =>
        if pyUpper (s.Name.getD "") = "TOTALE" ∨ pyUpper (s.Name.getD "") = "SPENTO" then none
        else some sid) with
  | nil => simp [haway, hpy1]
  | cons h t => simp

/-- Updating the side table stores the value that a later lookup of the
same key retrieves. -/
theorem tableGet_tableSet_same (t : AlarmTable) (k : AlarmKey) (v : Bool) :
    tableGet (tableSet t k v) k = v := by
  induction t with
  | nil => simp [tableSet, tableGet]
  | cons p rest ih =>
    obtain ⟨k2, v2⟩ := p
    by_cases h : k2 = k
    · simp [tableSet, h, tableGet]
    · simp [tableSet, h, tableGet, ih]

/-- One `_check_alarm_triggered` pass over a single-pair snapshot: an event
fires exactly when the flag is true and the stored previous value is
false, and the table is updated to the current flag. -/
theorem checkDevices_onePair (did : Nat) (h : did ≠ 0) (dname : String)
    (aid : Nat) (aname : String) (f : Bool) (tbl : AlarmTable) :
    checkDevices tbl (onePairSnapshot did dname aid aname f).devices =
      ((if f && !(tableGet tbl (did, some aid)) then
          [{ device_id := did, device_name := dname, area_id := some aid,
             area_name := aname }]
        else []),
       tableSet tbl (did, some aid) f) := by
  cases f <;> simp [checkDevices, checkAreas, onePairSnapshot, h]

/-- Running `_check_alarm_triggered` cycle after cycle produces exactly the
rising-edge events relative to the value stored for the pair. -/
theorem runCycles_eq_expected (did : Nat) (h : did ≠ 0) (dname : String)
    (aid : Nat) (aname : String) (flags : List Bool) :
    ∀ tbl : AlarmTable,
      (runCycles did dname aid aname tbl flags).1 =
        expectedEvents did dname aid aname (tableGet tbl (did, some aid)) flags := by
  induction flags with
  | nil => intro tbl; rfl
  | cons f rest ih =>
    intro tbl
    rw [runCycles, expectedEvents]
    simp only [checkDevices_onePair did h dname aid aname f tbl]
    rw [ih (tableSet tbl (did, some aid) f), tableGet_tableSet_same]

/-- C2: feeding the coordinator one snapshot per cycle for a single
(device, area) pair with a usable device id, the trigger events — each
carrying device id, device name, area id and area name — fire exactly at
the rising edges of the alarm flag relative to the stored previous value
(false if never seen); in particular the flag sequence
false, true, true, false, true yields exactly two events. -/
theorem C2_alarm_events_edge_triggered (did : Nat) (h : did ≠ 0)
    (dname : String) (aid : Nat) (aname : String) (flags : List Bool) :
    (runCycles did dname aid aname [] flags).1 =
      expectedEvents did dname aid aname false flags ∧
    ((runCycles did dname aid aname [] [false, true, true, false, true]).1).flatten.length = 2 := by
  refine ⟨runCycles_eq_expected did h dname aid aname flags [], ?_⟩
  rw [runCycles_eq_expected did h dname aid aname [false, true, true, false, true] []]
  rfl

/-- C2 witness: the edge-trigger theorem instantiated at a concrete pair,
including the two-event count for the flag sequence of the claim. -/
theorem C2_witness :
    (7 : Nat) ≠ 0 ∧
    (runCycles 7 "Dev" 3 "Area" [] [false, true, true, false, true]).1 =
      expectedEvents 7 "Dev" 3 "Area" false [false, true, true, false, true] ∧
    ((runCycles 7 "Dev" 3 "Area" [] [false, true, true, false, true]).1).flatten.length = 2 :=
  ⟨by decide,
   (C2_alarm_events_edge_triggered 7 (by decide) "Dev" 3 "Area"
     [false, true, true, false, true]).1,
   (C2_alarm_events_edge_triggered 7 (by decide) "Dev" 3 "Area"
     [false, true, true, false, true]).2⟩

/-- C3: the uniform retry contract, shown for `get_devices` and for the
command shape shared by `activate_scenario`, `bypass_zone` and
`insert_areas`. With a token in hand: (a) an auth-classified failure of
the attempt triggers exactly one re-authentication and exactly one retry
of the same request with the new token — two requests of the operation in
total, with the one `RegisterClient` between them, and the retry's result
is final; (b) a second auth-classified failure propagates as an
authentication failure with no third attempt; (c) a generic API failure
propagates after a single request, never retried; (d) with no token, a
token is first obtained and the request is then attempted once. The call
log records every network request with the token it carried, and each
part also shows the rest of the script is left unconsumed. -/
theorem C3_auth_retry_contract :
    (∀ (tok t2 : Nat) (ttl : Int) (ds devs : List RawDevice) (c1 : Int),
      (c1 = 18 ∨ c1 = 19 ∨ c1 = 20) → ∀ rest : List NetResp,
      getDevicesOp ⟨some tok, ttl, ds⟩
          ⟨.reply (errEnv c1) :: .reply (okEnv (some t2) []) ::
             .reply (okEnv none devs) :: rest, []⟩ =
        (.ok devs, ⟨some t2, 86400, devs⟩,
         ⟨rest, [(.getDevicesExtended, some tok), (.registerClient, none),
                 (.getDevicesExtended, some t2)]⟩)) ∧
    (∀ (tok t2 : Nat) (ttl : Int) (ds : List RawDevice) (c1 c2 : Int),
      (c1 = 18 ∨ c1 = 19 ∨ c1 = 20) → (c2 = 18 ∨ c2 = 19 ∨ c2 = 20) →
      ∀ rest : List NetResp,
      getDevicesOp ⟨some tok, ttl, ds⟩
          ⟨.reply (errEnv c1) :: .reply (okEnv (some t2) []) ::
             .reply (errEnv c2) :: rest, []⟩ =
        (.error (.auth c2), ⟨some t2, 86400, ds⟩,
         ⟨rest, [(.getDevicesExtended, some tok), (.registerClient, none),
                 (.getDevicesExtended, some t2)]⟩)) ∧
    (∀ (tok : Nat) (ttl : Int) (ds : List RawDevice) (c : Int),
      ¬(c = 18 ∨ c = 19 ∨ c = 20) → c ≠ 0 → ∀ rest : List NetResp,
      getDevicesOp ⟨some tok, ttl, ds⟩ ⟨.reply (errEnv c) :: rest, []⟩ =
        (.error (.api c), ⟨some tok, ttl, ds⟩,
         ⟨rest, [(.getDevicesExtended, some tok)]⟩)) ∧
    (∀ (t2 : Nat) (ttl : Int) (ds devs : List RawDevice) (rest : List NetResp),
      getDevicesOp ⟨none, ttl, ds⟩
          ⟨.reply (okEnv (some t2) []) :: .reply (okEnv none devs) :: rest, []⟩ =
        (.ok devs, ⟨some t2, 86400, devs⟩,
         ⟨rest, [(.registerClient, none), (.getDevicesExtended, some t2)]⟩)) ∧
    (∀ (m : Method) (tok t2 : Nat) (ttl : Int) (ds : List RawDevice) (c1 : Int),
      (c1 = 18 ∨ c1 = 19 ∨ c1 = 20) → ∀ rest : List NetResp,
      commandOp m ⟨some tok, ttl, ds⟩
          ⟨.reply (errEnv c1) :: .reply (okEnv (some t2) []) ::
             .reply (okEnv none []) :: rest, []⟩ =
        (.ok true, ⟨some t2, 86400, ds⟩,
         ⟨rest, [(m, some tok), (.registerClient, none), (m, some t2)]⟩)) ∧
    (∀ (m : Method) (tok t2 : Nat) (ttl : Int) (ds : List RawDevice) (c1 c2 : Int),
      (c1 = 18 ∨ c1 = 19 ∨ c1 = 20) → (c2 = 18 ∨ c2 = 19 ∨ c2 = 20) →
      ∀ rest : List NetResp,
      commandOp m ⟨some tok, ttl, ds⟩
          ⟨.reply (errEnv c1) :: .reply (okEnv (some t2) []) ::
             .reply (errEnv c2) :: rest, []⟩ =
        (.error (.auth c2), ⟨some t2, 86400, ds⟩,
         ⟨rest, [(m, some tok), (.registerClient, none), (m, some t2)]⟩)) ∧
    (∀ (m : Method) (tok : Nat) (ttl : Int) (ds : List RawDevice) (c : Int),
      ¬(c = 18 ∨ c = 19 ∨ c = 20) → c ≠ 0 → ∀ rest : List NetResp,
      commandOp m ⟨some tok, ttl, ds⟩ ⟨.reply (errEnv c) :: rest, []⟩ =
        (.error (.api c), ⟨some tok, ttl, ds⟩, ⟨rest, [(m, some tok)]⟩)) := by
  refine ⟨?_, ?_, ?_, ?_, ?_, ?_, ?_⟩
  · intro tok t2 ttl ds devs c1 h rest
    rcases h with rfl | rfl | rfl <;> rfl
  · intro tok t2 ttl ds c1 c2 h1 h2 rest
    rcases h1 with rfl | rfl | rfl <;> rcases h2 with rfl | rfl | rfl <;> rfl
  · intro tok ttl ds c hA h0 rest
    simp [getDevicesOp, ensureAuthenticated, requestStep, errEnv, h0, hA]
  · intro t2 ttl ds devs rest
    rfl
  · intro m tok t2 ttl ds c1 h rest
    rcases h with rfl | rfl | rfl <;> rfl
  · intro m tok t2 ttl ds c1 c2 h1 h2 rest
    rcases h1 with rfl | rfl | rfl <;> rcases h2 with rfl | rfl | rfl <;> rfl
  · intro m tok ttl ds c hA h0 rest
    simp [commandOp, ensureAuthenticated, requestStep, errEnv, h0, hA]

/-- C3 witness: the retry contract applied to concrete scripts — a
retry-then-success run, a twice-auth-failing run, and an unretried generic
failure. -/
theorem C3_witness :
    getDevicesOp ⟨some 1, 0, []⟩
        ⟨[.reply (errEnv 18), .reply (okEnv (some 2) []), .reply (okEnv none [])], []⟩ =
      (.ok [], ⟨some 2, 86400, []⟩,
       ⟨[], [(.getDevicesExtended, some 1), (.registerClient, none),
             (.getDevicesExtended, some 2)]⟩) ∧
    commandOp .activateScenario ⟨some 1, 0, []⟩
        ⟨[.reply (errEnv 19), .reply (okEnv (some 2) []), .reply (errEnv 20)], []⟩ =
      (.error (.auth 20), ⟨some 2, 86400, []⟩,
       ⟨[], [(.activateScenario, some 1), (.registerClient, none),
             (.activateScenario, some 2)]⟩) ∧
    getDevicesOp ⟨some 1, 0, []⟩ ⟨[.reply (errEnv 5)], []⟩ =
      (.error (.api 5), ⟨some 1, 0, []⟩, ⟨[], [(.getDevicesExtended, some 1)]⟩) :=
  ⟨C3_auth_retry_contract.1 1 2 0 [] [] 18 (by decide) [],
   C3_auth_retry_contract.2.2.2.2.2.1 .activateScenario 1 2 0 [] 19 20
     (by decide) (by decide) [],
   C3_auth_retry_contract.2.2.1 1 0 [] 5 (by decide) (by decide) []⟩

/-- C7 counterexample: with an empty configured user code the bypass
handler issues no request but also surfaces no error of any kind — it
returns normally, whereas the claim demands a surfaced configuration
error; and the api-level area arm/disarm issues its network request even
with an empty user code. -/
theorem C7_counterexample :
    asyncTurnOn "" ⟨some 1, 0, []⟩ ⟨[.reply (okEnv none [])], []⟩ =
      (.ok (), ⟨some 1, 0, []⟩, ⟨[.reply (okEnv none [])], []⟩) ∧
    (insertAreasOp "" true ⟨some 1, 0, []⟩ ⟨[.reply (okEnv none [])], []⟩).2.2.calls =
      [(.insertAreas, some 1)] := by
  exact ⟨rfl, rfl⟩

/-- C7 (amended): the bypass/reinstate switch handlers reject an empty
configured user code locally — zero network calls, state untouched — but
return silently after logging instead of raising any error (the repository
defines no ConfigurationError); the api-level `bypass_zone` and
`insert_areas` perform no user-code precondition check at all. -/
theorem C7_empty_code_no_network (user_code : String) (h : user_code = "")
    (st : ApiState) (net : Net) :
    asyncTurnOn user_code st net = (.ok (), st, net) ∧
    asyncTurnOff user_code st net = (.ok (), st, net) := by
  subst h
  exact ⟨rfl, rfl⟩

/-- C7 witness: the empty-code theorem at a concrete session and script. -/
theorem C7_witness :
    asyncTurnOn "" ⟨some 3, 0, []⟩ ⟨[.reply (errEnv 5)], []⟩ =
      (.ok (), ⟨some 3, 0, []⟩, ⟨[.reply (errEnv 5)], []⟩) ∧
    asyncTurnOff "" ⟨some 3, 0, []⟩ ⟨[.reply (errEnv 5)], []⟩ =
      (.ok (), ⟨some 3, 0, []⟩, ⟨[.reply (errEnv 5)], []⟩) :=
  C7_empty_code_no_network "" rfl ⟨some 3, 0, []⟩ ⟨[.reply (errEnv 5)], []⟩

/-- C8 counterexample: when `authenticate` is invoked while a stale token
is present and the registration reply carries an auth-error status, the
failure is signalled but the session keeps the stale token — it does not
remain with a null token as the claim states. -/
theorem C8_counterexample :
    (authenticate ⟨some 99, 0, []⟩ ⟨[.reply (errEnv 18)], []⟩).1 =
      .error (.auth 18) ∧
    (authenticate ⟨some 99, 0, []⟩ ⟨[.reply (errEnv 18)], []⟩).2.1.token = some 99 ∧
    isAuthenticated (authenticate ⟨some 99, 0, []⟩ ⟨[.reply (errEnv 18)], []⟩).2.1 = true := by
  exact ⟨rfl, rfl, rfl⟩

/-- C8 (amended): whenever `authenticate()` is invoked from the
Unauthenticated state (token null) and fails — a successful envelope whose
data is malformed or lacks a token, or an explicit auth-error status — the
session remains Unauthenticated (token null) and the failure is classified
as an authentication failure, a classification distinct from the generic
API failure under which connectivity errors fall. -/
theorem C8_failed_authenticate_stays_unauthenticated (ttl : Int)
    (ds : List RawDevice) (rest : List NetResp)
    (calls : List (Method × Option Nat)) (tt : Option Int)
    (devs : List RawDevice) (c : Int) (hc : c = 18 ∨ c = 19 ∨ c = 20) :
    (authenticate ⟨none, ttl, ds⟩
        ⟨.reply ⟨0, none, tt, devs⟩ :: rest, calls⟩).1 = .error (.auth 0) ∧
    (authenticate ⟨none, ttl, ds⟩
        ⟨.reply ⟨0, none, tt, devs⟩ :: rest, calls⟩).2.1.token = none ∧
    (authenticate ⟨none, ttl, ds⟩
        ⟨.reply (errEnv c) :: rest, calls⟩).1 = .error (.auth c) ∧
    (authenticate ⟨none, ttl, ds⟩
        ⟨.reply (errEnv c) :: rest, calls⟩).2.1.token = none ∧
    (∀ c2 c3 : Int, InimErr.auth c2 ≠ InimErr.api c3) := by
  refine ⟨rfl, rfl, ?_, ?_, ?_⟩
  · rcases hc with rfl | rfl | rfl <;> rfl
  · rcases hc with rfl | rfl | rfl <;> rfl
  · intro c2 c3 h
    cases h

/-- C8 witness: the amended theorem at a concrete auth-error status. -/
theorem C8_witness :
    (authenticate ⟨none, 0, []⟩ ⟨[.reply ⟨0, none, none, []⟩], []⟩).1 =
      .error (.auth 0) ∧
    (authenticate ⟨none, 0, []⟩ ⟨[.reply ⟨0, none, none, []⟩], []⟩).2.1.token = none ∧
    (authenticate ⟨none, 0, []⟩ ⟨[.reply (errEnv 18)], []⟩).1 = .error (.auth 18) ∧
    (authenticate ⟨none, 0, []⟩ ⟨[.reply (errEnv 18)], []⟩).2.1.token = none ∧
    (∀ c2 c3 : Int, InimErr.auth c2 ≠ InimErr.api c3) :=
  C8_failed_authenticate_stays_unauthenticated 0 [] [] [] none [] 18 (by decide)

/-- C10: before the first successful refresh (`data = none`) the devices
accessor returns the empty list and every lookup accessor returns `none`;
and in every state, a lookup whose id matches nothing in the current
snapshot — including an active-scenario id with no matching scenario —
returns `none` rather than raising. -/
theorem C10_lookup_accessors_total :
    (∀ did, getDevice none did = none) ∧
    (∀ did zid, getZone none did zid = none) ∧
    (∀ did aid, getArea none did aid = none) ∧
    (∀ did sid, getScenario none did sid = none) ∧
    (∀ did, getActiveScenario none did = none) ∧
    coordinatorDevices none = [] ∧
    (∀ (data : Option Snapshot) (did : Nat),
      (∀ d ∈ coordinatorDevices data, d.device_id ≠ some did) →
      getDevice data did = none) ∧
    (∀ (data : Option Snapshot) (did zid : Nat),
      (∀ d ∈ coordinatorDevices data, ∀ z ∈ d.zones, z.ZoneId ≠ some zid) →
      getZone data did zid = none) ∧
    (∀ (data : Option Snapshot) (did aid : Nat),
      (∀ d ∈ coordinatorDevices data, ∀ a ∈ d.areas, a.AreaId ≠ some aid) →
      getArea data did aid = none) ∧
    (∀ (data : Option Snapshot) (did : Nat) (sid : Int),
      (∀ d ∈ coordinatorDevices data, ∀ s ∈ d.scenarios, s.ScenarioId ≠ some sid) →
      getScenario data did sid = none) ∧
    (∀ (data : Option Snapshot) (did : Nat) (d : DeviceData),
      getDevice data did = some d → d.active_scenario = none →
      getActiveScenario data did = none) ∧
    (∀ (data : Option Snapshot) (did : Nat) (d : DeviceData) (aid : Int),
      getDevice data did = some d → d.active_scenario = some aid →
      (∀ s ∈ d.scenarios, s.ScenarioId ≠ some aid) →
      getActiveScenario data did = none) := by
  have hdev : ∀ (data : Option Snapshot) (did : Nat),
      (∀ d ∈ coordinatorDevices data, d.device_id ≠ some did) →
      getDevice data did = none := by
    intro data did h
    cases data with
    | none => rfl
    | some s =>
      simp only [getDevice]
      rw [List.find?_eq_none]
      intro d hd
      simpa using h d hd
  have hmem : ∀ (s : Snapshot) (did : Nat) (d : DeviceData),
      getDevice (some s) did = some d → d ∈ s.devices := by
    intro s did d hd
    simp only [getDevice] at hd
    exact List.mem_of_find?_eq_some hd
  refine ⟨fun did => rfl, fun did zid => rfl, fun did aid => rfl,
    fun did sid => rfl, fun did => rfl, rfl, hdev, ?_, ?_, ?_, ?_, ?_⟩
  · intro data did zid h
    cases data with
    | none => rfl
    | some s =>
      simp only [getZone]
      cases hd : getDevice (some s) did with
      | none => rfl
      | some d =>
        rw [List.find?_eq_none]
        intro z hz
        simpa using h d (hmem s did d hd) z hz
  · intro data did aid h
    cases data with
    | none => rfl
    | some s =>
      simp only [getArea]
      cases hd : getDevice (some s) did with
      | none => rfl
      | some d =>
        rw [List.find?_eq_none]
        intro a ha
        simpa using h d (hmem s did d hd) a ha
  · intro data did sid h
    cases data with
    | none => rfl
    | some s =>
      simp only [getScenario]
      cases hd : getDevice (some s) did with
      | none => rfl
      | some d =>
        rw [List.find?_eq_none]
        intro sc hs
        simpa using h d (hmem s did d hd) sc hs
  · intro data did d hdev2 hact
    simp only [getActiveScenario, hdev2, hact]
  · intro data did d aid hdev2 hact h
    simp only [getActiveScenario, hdev2, hact, getScenario]
    rw [List.find?_eq_none]
    intro sc hs
    simpa using h sc hs

/-- C10 witness: the accessor theorem at a concrete snapshot with one
device (id 1, active scenario 5, only scenario 9), looking up absent ids
and the unmatched active scenario. -/
theorem C10_witness :
    getDevice (some sampleLookupSnapshot) 2 = none ∧
    getZone (some sampleLookupSnapshot) 1 3 = none ∧
    getArea (some sampleLookupSnapshot) 1 3 = none ∧
    getScenario (some sampleLookupSnapshot) 1 3 = none ∧
    getActiveScenario (some sampleLookupSnapshot) 1 = none ∧
    getDevice none 1 = none ∧ coordinatorDevices none = [] :=
  ⟨C10_lookup_accessors_total.2.2.2.2.2.2.1 (some sampleLookupSnapshot) 2 (by decide),
   C10_lookup_accessors_total.2.2.2.2.2.2.2.1 (some sampleLookupSnapshot) 1 3 (by decide),
   C10_lookup_accessors_total.2.2.2.2.2.2.2.2.1 (some sampleLookupSnapshot) 1 3 (by decide),
   C10_lookup_accessors_total.2.2.2.2.2.2.2.2.2.1 (some sampleLookupSnapshot) 1 3 (by decide),
   C10_lookup_accessors_total.2.2.2.2.2.2.2.2.2.2.2 (some sampleLookupSnapshot) 1
     { device_id := some 1, name := "Panel", serial_number := none,
       model := "", firmware := "", voltage := none,
       active_scenario := some 5, network_status := none, faults := 0,
       areas := [{ AreaId := some 4, Name := some "A", Alarm := none, Armed := none }],
       zones := [{ ZoneId := some 6, Name := some "Z", Status := some 1 }],
       scenarios := [{ ScenarioId := some 9, Name := some "S" }] }
     5 (by decide) (by decide) (by decide),
   C10_lookup_accessors_total.1 1,
   C10_lookup_accessors_total.2.2.2.2.2.1⟩

end InimAlarm
